import Mathlib

/-!
# hermes::StackOverflowGuard

A shallow embedding of `include/hermes/Support/StackOverflowGuard.h`.

The C++ types `size_t` and `unsigned` are unsigned machine integers whose
widths depend on the target.  Their values are natural numbers here; the width
of `size_t` in bits is the parameter `w` and the width of `unsigned` the
parameter `u`, and every operation that can leave the range reduces its result
modulo `2 ^ w`.  The targets Hermes builds for have `u = 32` and `w = 32` or
`w = 64`.
-/

namespace hermes

/-- Conversion of an integer value to `size_t` on a target whose `size_t` has
`w` bits: the value modulo `2 ^ w`. -/
def toSizeT (w : Nat) (x : Nat) : Nat := x % 2 ^ w

/-- The class `StackOverflowGuard`: its two public `size_t` data members. -/
structure StackOverflowGuard where
  /-- This is how many recursive calls have already been made. -/
  callDepth : Nat
  /-- If callDepth exceeds this value, it is considered overflow. -/
  maxCallDepth : Nat
  deriving DecidableEq, Repr

namespace StackOverflowGuard

/-- The private constructor `explicit StackOverflowGuard(size_t max)`:
`maxCallDepth` is initialised from `max`, and `callDepth` by its default member
initialiser `{0}`. -/
def ctor (max : Nat) : StackOverflowGuard :=
  { callDepth := 0, maxCallDepth := max }

/-- The static factory `depthCounterGuard(unsigned stackGap)`: it passes
`stackGap` to the constructor, whose parameter is a `size_t`, so the argument is
converted from `unsigned` to `size_t`. -/
def depthCounterGuard (w : Nat) (stackGap : Nat) : StackOverflowGuard :=
  ctor (toSizeT w stackGap)

/-- The member function `isOverflowing()`.  It is not declared `const`, so the
embedding returns the guard as it is once the body has run, next to the
result `callDepth > maxCallDepth`; the body holds no assignment. -/
def isOverflowing (g : StackOverflowGuard) : Bool × StackOverflowGuard :=
  (decide (g.callDepth > g.maxCallDepth), g)

/-- Modelled from the spec: the hook `enter()`, which the header does not
declare (callers bump the public member themselves).  The spec says it
"increments `callDepth` by 1"; `callDepth` is a `size_t`, so the sum is taken
modulo `2 ^ w`. -/
def enter (w : Nat) (g : StackOverflowGuard) : StackOverflowGuard :=
  { g with callDepth := (g.callDepth + 1) % 2 ^ w }

/-- Modelled from the spec: the hook `leave()`, which the header does not
declare.  The spec says it "decrements `callDepth` by 1"; on a `size_t` the
difference is taken modulo `2 ^ w`, so a decrement at 0 wraps to `2 ^ w - 1`. -/
def leave (w : Nat) (g : StackOverflowGuard) : StackOverflowGuard :=
  { g with callDepth := (g.callDepth + (2 ^ w - 1)) % 2 ^ w }

/-- The guard after `n` consecutive `enter()` calls. -/
def enterN (w : Nat) : Nat → StackOverflowGuard → StackOverflowGuard
  | 0, g => g
  | n + 1, g => enterN w n (enter w g)

/-- The results of `n` consecutive `isOverflowing()` calls, in call order, and
the guard they leave behind; each call runs on the guard the previous one
left. -/
def queryN : Nat → StackOverflowGuard → List Bool × StackOverflowGuard
  | 0, g => ([], g)
  | n + 1, g =>
    let r := isOverflowing g
    let rest := queryN n r.2
    (r.1 :: rest.1, rest.2)

end StackOverflowGuard

/-- The operations a caller can apply to a guard. -/
inductive Op where
  | enter
  | leave
  | isOverflowing
  deriving DecidableEq, Repr

/-- The guard after one operation; a query keeps the guard it hands back. -/
def step (w : Nat) (g : StackOverflowGuard) : Op → StackOverflowGuard
  | Op.enter => StackOverflowGuard.enter w g
  | Op.leave => StackOverflowGuard.leave w g
  | Op.isOverflowing => (StackOverflowGuard.isOverflowing g).2

/-- The guard after a finite sequence of operations, applied left to right. -/
def run (w : Nat) (g : StackOverflowGuard) (ops : List Op) : StackOverflowGuard :=
  ops.foldl (step w) g

/-- Matching of `enter()` and `leave()` in a sequence that starts with `pending`
earlier calls to `enter()` still unmatched: each `leave()` closes an earlier `enter()`
that is still open, and at the end nothing is left open.  Queries do not
count. -/
def balancedFrom : Nat → List Op → Bool
  | pending, [] => pending == 0
  | pending, Op.enter :: rest => balancedFrom (pending + 1) rest
  | 0, Op.leave :: _ => false
  | pending + 1, Op.leave :: rest => balancedFrom pending rest
  | pending, Op.isOverflowing :: rest => balancedFrom pending rest

/-- A sequence in which every `enter()` has a later `leave()` of its own and
every `leave()` an earlier `enter()` of its own. -/
def balanced (ops : List Op) : Bool := balancedFrom 0 ops

/-- Modelled from the spec: the direction of stack growth, which the spec asks
an address-mode guard to account for. -/
inductive StackGrowth where
  | towardLower
  | towardHigher
  deriving DecidableEq, Repr

/-- Modelled from the spec: the address-mode guard, described by the header
comment under `HERMES_CHECK_NATIVE_STACK` and by the spec, with no code in the
header.  It stores the captured stack ceiling and the configured gap in
bytes. -/
structure AddressGuard where
  growth : StackGrowth
  stackCeiling : Nat
  gap : Nat
  deriving DecidableEq, Repr

namespace AddressGuard

/-- Modelled from the spec: "the distance remaining to the captured stack
ceiling" from the stack pointer `sp`, measured along the direction of growth;
no room remains once `sp` is at or past the ceiling. -/
def remaining (g : AddressGuard) (sp : Nat) : Nat :=
  match g.growth with
  | StackGrowth.towardLower => sp - g.stackCeiling
  | StackGrowth.towardHigher => g.stackCeiling - sp

/-- Modelled from the spec: the address-mode query, which "returns true if that
remaining distance is less than or equal to the configured gap"; `sp` is the
stack pointer read for this query. -/
def isOverflowing (g : AddressGuard) (sp : Nat) : Bool :=
  decide (g.remaining sp ≤ g.gap)

end AddressGuard

open StackOverflowGuard

/-! ## Theorems -/

/-! ### Arithmetic of the wrapping counter -/

theorem two_pow_pos_size (w : Nat) : 0 < 2 ^ w := Nat.two_pow_pos w

theorem toSizeT_of_lt (w x : Nat) (h : x < 2 ^ w) : toSizeT w x = x := by
  unfold toSizeT
  exact Nat.mod_eq_of_lt h

theorem toSizeT_of_unsigned (u w c : Nat) (huw : u ≤ w) (hc : c < 2 ^ u) :
    toSizeT w c = c :=
  toSizeT_of_lt w c (lt_of_lt_of_le hc (Nat.pow_le_pow_right (by decide) huw))

theorem succ_mod_pred_mod (m d : Nat) (hm : 0 < m) :
    ((d + 1) % m + (m - 1)) % m = d % m := by
  have h1 : ((d + 1) % m + (m - 1)) % m = ((d + 1) + (m - 1)) % m := Nat.mod_add_mod _ _ _
  have h2 : (d + 1) + (m - 1) = d + m := by omega
  rw [h1, h2, Nat.add_mod_right]

theorem succ_mod_gt_iff (m N : Nat) (hN : N < m) : (N + 1) % m > N ↔ N + 1 < m := by
  constructor
  · intro h
    by_contra hlt
    have he : N + 1 = m := by omega
    rw [he, Nat.mod_self] at h
    omega
  · intro h
    rw [Nat.mod_eq_of_lt h]
    omega

/-! ### Frame lemmas -/

theorem isOverflowing_fst (g : StackOverflowGuard) :
    (isOverflowing g).1 = decide (g.callDepth > g.maxCallDepth) := rfl

theorem enter_maxCallDepth (w : Nat) (g : StackOverflowGuard) :
    (enter w g).maxCallDepth = g.maxCallDepth := rfl

theorem leave_maxCallDepth (w : Nat) (g : StackOverflowGuard) :
    (leave w g).maxCallDepth = g.maxCallDepth := rfl

theorem step_maxCallDepth (w : Nat) (g : StackOverflowGuard) (op : Op) :
    (step w g op).maxCallDepth = g.maxCallDepth := by
  cases op <;> rfl

theorem run_maxCallDepth (w : Nat) (ops : List Op) :
    ∀ g : StackOverflowGuard, (run w g ops).maxCallDepth = g.maxCallDepth := by
  induction ops with
  | nil => intro g; rfl
  | cons op rest ih =>
    intro g
    show (run w (step w g op) rest).maxCallDepth = g.maxCallDepth
    rw [ih, step_maxCallDepth]

theorem enterN_maxCallDepth (w n : Nat) :
    ∀ g : StackOverflowGuard, (enterN w n g).maxCallDepth = g.maxCallDepth := by
  induction n with
  | zero => intro g; rfl
  | succ n ih =>
    intro g
    show (enterN w n (enter w g)).maxCallDepth = g.maxCallDepth
    rw [ih, enter_maxCallDepth]

/-- After `n` calls to `enter()` the counter is the old value plus `n`, reduced
to the range of `size_t`. -/
theorem enterN_callDepth (w n : Nat) :
    ∀ g : StackOverflowGuard, g.callDepth < 2 ^ w →
      (enterN w n g).callDepth = (g.callDepth + n) % 2 ^ w := by
  induction n with
  | zero =>
    intro g hg
    show g.callDepth = (g.callDepth + 0) % 2 ^ w
    rw [Nat.add_zero, Nat.mod_eq_of_lt hg]
  | succ n ih =>
    intro g _
    show (enterN w n (enter w g)).callDepth = (g.callDepth + (n + 1)) % 2 ^ w
    rw [ih (enter w g) (Nat.mod_lt _ (two_pow_pos_size w))]
    show ((g.callDepth + 1) % 2 ^ w + n) % 2 ^ w = (g.callDepth + (n + 1)) % 2 ^ w
    rw [Nat.mod_add_mod]
    congr 1
    omega

theorem depthCounterGuard_callDepth (w c : Nat) :
    (depthCounterGuard w c).callDepth = 0 := rfl

theorem depthCounterGuard_maxCallDepth (w c : Nat) :
    (depthCounterGuard w c).maxCallDepth = toSizeT w c := rfl

/-- The counter after `n` calls to `enter()` on a fresh guard. -/
theorem enterN_fresh_callDepth (w n c : Nat) :
    (enterN w n (depthCounterGuard w c)).callDepth = n % 2 ^ w := by
  rw [enterN_callDepth w n _ (two_pow_pos_size w), depthCounterGuard_callDepth, Nat.zero_add]

/-- A run that starts with `pending` unmatched `enter()` calls recorded in the
counter, and is balanced from there, ends with the counter at 0. -/
theorem run_balancedFrom (w : Nat) (ops : List Op) :
    ∀ (pending : Nat) (g : StackOverflowGuard), g.callDepth = pending % 2 ^ w →
      balancedFrom pending ops = true → (run w g ops).callDepth = 0 := by
  induction ops with
  | nil =>
    intro pending g hg hb
    have hz : pending = 0 := by simpa [balancedFrom] using hb
    show g.callDepth = 0
    rw [hg, hz, Nat.zero_mod]
  | cons op rest ih =>
    intro pending g hg hb
    cases op with
    | enter =>
      refine ih (pending + 1) (enter w g) ?_ (by simpa [balancedFrom] using hb)
      show (g.callDepth + 1) % 2 ^ w = (pending + 1) % 2 ^ w
      rw [hg, Nat.mod_add_mod]
    | leave =>
      cases pending with
      | zero => simp [balancedFrom] at hb
      | succ p =>
        refine ih p (leave w g) ?_ (by simpa [balancedFrom] using hb)
        show (g.callDepth + (2 ^ w - 1)) % 2 ^ w = p % 2 ^ w
        rw [hg]
        exact succ_mod_pred_mod (2 ^ w) p (two_pow_pos_size w)
    | isOverflowing =>
      exact ih pending g hg (by simpa [balancedFrom] using hb)

theorem queryN_eq (n : Nat) (g : StackOverflowGuard) :
    queryN n g = (List.replicate n (isOverflowing g).1, g) := by
  induction n with
  | zero => rfl
  | succ n ih =>
    show ((isOverflowing g).1 :: (queryN n (isOverflowing g).2).1,
      (queryN n (isOverflowing g).2).2) = _
    have hg : (isOverflowing g).2 = g := rfl
    rw [hg, ih]
    rfl

/-! ### The claims -/

/-- C1: in every counter-mode state, whatever `callDepth` and `maxCallDepth`
are, `isOverflowing()` returns true exactly when `callDepth > maxCallDepth`;
the comparison is strict, so the answer is false when the two are equal. -/
theorem isOverflowing_iff_callDepth_gt :
    (∀ d m : Nat, ((isOverflowing { callDepth := d, maxCallDepth := m }).1 = true ↔ d > m)) ∧
    (∀ m : Nat, (isOverflowing { callDepth := m, maxCallDepth := m }).1 = false) := by
  refine ⟨fun d m => ?_, fun m => ?_⟩
  · simp [isOverflowing]
  · simp [isOverflowing]

/-- C2 (counterexample): on a target where `size_t` and `unsigned` both have 32
bits, the ceiling 4294967295 is an `unsigned` value, and after 4294967296 calls
to `enter()` on `depthCounterGuard(4294967295)` the counter has wrapped to 0, so
`isOverflowing()` returns false after the (N+1)-th `enter()`. -/
theorem enter_past_ceiling_wraps_on_32_bit :
    4294967295 < 2 ^ 32 ∧
    (isOverflowing (enterN 32 (4294967295 + 1) (depthCounterGuard 32 4294967295))).1 = false := by
  refine ⟨by norm_num, ?_⟩
  have hd := enterN_fresh_callDepth 32 (4294967295 + 1) 4294967295
  have h : ¬ ((enterN 32 (4294967295 + 1) (depthCounterGuard 32 4294967295)).callDepth >
      (enterN 32 (4294967295 + 1) (depthCounterGuard 32 4294967295)).maxCallDepth) := by
    rw [hd]
    norm_num
  rw [isOverflowing_fst]
  exact decide_eq_false h

/-- C2 (amended): for every ceiling `N` that is a `size_t` value (so for every
`unsigned` `N`), `depthCounterGuard(N)` has `maxCallDepth = N` and after the
k-th `enter()` with `1 ≤ k ≤ N` `isOverflowing()` returns false; after the
(N+1)-th `enter()` it returns true exactly when `N + 1` is still a `size_t`
value (`N + 1 < 2 ^ w`, which holds for every `unsigned` `N` when `size_t` is
wider than `unsigned`). -/
theorem enter_overflows_right_after_ceiling (w N : Nat) (hN : N < 2 ^ w) :
    (depthCounterGuard w N).maxCallDepth = N ∧
    (∀ k : Nat, 1 ≤ k → k ≤ N →
      (isOverflowing (enterN w k (depthCounterGuard w N))).1 = false) ∧
    ((isOverflowing (enterN w (N + 1) (depthCounterGuard w N))).1 = true ↔
      N + 1 < 2 ^ w) := by
  have hmax : (depthCounterGuard w N).maxCallDepth = N := toSizeT_of_lt w N hN
  refine ⟨hmax, fun k _ hk => ?_, ?_⟩
  · have hd : (enterN w k (depthCounterGuard w N)).callDepth = k := by
      rw [enterN_fresh_callDepth, Nat.mod_eq_of_lt (by omega)]
    rw [isOverflowing_fst, hd, enterN_maxCallDepth, hmax]
    exact decide_eq_false (by omega)
  · rw [isOverflowing_fst, decide_eq_true_iff, enterN_fresh_callDepth,
      enterN_maxCallDepth, hmax]
    exact succ_mod_gt_iff (2 ^ w) N hN

/-- The amended C2 statement at ceiling 3 on a target with a 64-bit `size_t`. -/
theorem enter_overflows_right_after_ceiling_witness :
    3 < 2 ^ 64 ∧
    ((depthCounterGuard 64 3).maxCallDepth = 3 ∧
    (∀ k : Nat, 1 ≤ k → k ≤ 3 →
      (isOverflowing (enterN 64 k (depthCounterGuard 64 3))).1 = false) ∧
    ((isOverflowing (enterN 64 (3 + 1) (depthCounterGuard 64 3))).1 = true ↔
      3 + 1 < 2 ^ 64)) :=
  ⟨by norm_num, enter_overflows_right_after_ceiling 64 3 (by norm_num)⟩

/-- C3: counter-mode construction is total and exact.  For every `unsigned`
value `c` (`c < 2 ^ u`, with `size_t` at least as wide as `unsigned`) the
conversion to `size_t` returns `c` itself, and `depthCounterGuard(c)` is the
guard with `callDepth = 0` and `maxCallDepth = c`. -/
theorem depthCounterGuard_exact (u w c : Nat) (huw : u ≤ w) (hc : c < 2 ^ u) :
    toSizeT w c = c ∧
    ∃ g : StackOverflowGuard,
      depthCounterGuard w c = g ∧ g.callDepth = 0 ∧ g.maxCallDepth = c := by
  have h := toSizeT_of_unsigned u w c huw hc
  exact ⟨h, depthCounterGuard w c, rfl, rfl, h⟩

/-- The C3 statement at the largest 32-bit `unsigned` value with a 64-bit `size_t`. -/
theorem depthCounterGuard_exact_witness :
    32 ≤ 64 ∧ 4294967295 < 2 ^ 32 ∧
    (toSizeT 64 4294967295 = 4294967295 ∧
    ∃ g : StackOverflowGuard,
      depthCounterGuard 64 4294967295 = g ∧ g.callDepth = 0 ∧
        g.maxCallDepth = 4294967295) :=
  ⟨by decide, by norm_num,
    depthCounterGuard_exact 32 64 4294967295 (by decide) (by norm_num)⟩

/-- C4: from a freshly constructed guard, after any finite sequence of
`enter()` and `leave()` calls in which every `enter()` is matched by a later
`leave()` and every `leave()` by an earlier `enter()`, `callDepth` is 0. -/
theorem callDepth_zero_after_balanced (w c : Nat) (ops : List Op)
    (hb : balanced ops = true) :
    (run w (depthCounterGuard w c) ops).callDepth = 0 :=
  run_balancedFrom w ops 0 (depthCounterGuard w c) (Nat.zero_mod _).symm hb

/-- The C4 statement on a nested and interleaved balanced sequence of eight hooks. -/
theorem callDepth_zero_after_balanced_witness :
    balanced [Op.enter, Op.enter, Op.leave, Op.enter, Op.leave, Op.leave,
      Op.enter, Op.leave] = true ∧
    (run 64 (depthCounterGuard 64 3)
      [Op.enter, Op.enter, Op.leave, Op.enter, Op.leave, Op.leave,
        Op.enter, Op.leave]).callDepth = 0 :=
  ⟨by decide, callDepth_zero_after_balanced 64 3 _ (by decide)⟩

/-- C5: `isOverflowing()` has no side effect: it leaves `callDepth` and
`maxCallDepth` as they were, and `n` consecutive calls, for any `n`, all return
the boolean of the first call and leave the guard unchanged. -/
theorem isOverflowing_side_effect_free (g : StackOverflowGuard) (n : Nat) :
    (isOverflowing g).2.callDepth = g.callDepth ∧
    (isOverflowing g).2.maxCallDepth = g.maxCallDepth ∧
    queryN n g = (List.replicate n (isOverflowing g).1, g) :=
  ⟨rfl, rfl, queryN_eq n g⟩

/-- C6 (counterexample): on a target where `size_t` and `unsigned` both have 32
bits, with the ceiling `N = 4294967295` it is not the case that
`isOverflowing()` is true after `N + 1` calls to `enter()` and false after one
more `leave()`: the counter has wrapped to 0 and no overflow is reported. -/
theorem overflow_report_lost_at_unsigned_max_on_32_bit :
    ¬ ((isOverflowing (enterN 32 (4294967295 + 1) (depthCounterGuard 32 4294967295))).1 = true ∧
      (isOverflowing
        (leave 32 (enterN 32 (4294967295 + 1) (depthCounterGuard 32 4294967295)))).1 = false) := by
  rintro ⟨h, -⟩
  rw [isOverflowing_fst, decide_eq_true_iff,
    enterN_fresh_callDepth 32 (4294967295 + 1) 4294967295] at h
  norm_num at h

/-- C6 (amended): for every ceiling `N` that is a `size_t` value, starting from
`depthCounterGuard(N)`: after `N + 1` calls to `enter()` `isOverflowing()` is
true exactly when `N + 1` is still a `size_t` value (`N + 1 < 2 ^ w`); after
one `leave()` more `callDepth` is back to `N` and `isOverflowing()` is
false. -/
theorem overflow_clears_after_leave (w N : Nat) (hN : N < 2 ^ w) :
    ((isOverflowing (enterN w (N + 1) (depthCounterGuard w N))).1 = true ↔
      N + 1 < 2 ^ w) ∧
    (leave w (enterN w (N + 1) (depthCounterGuard w N))).callDepth = N ∧
    (isOverflowing (leave w (enterN w (N + 1) (depthCounterGuard w N)))).1 = false := by
  have hmax : (depthCounterGuard w N).maxCallDepth = N := toSizeT_of_lt w N hN
  have hl : (leave w (enterN w (N + 1) (depthCounterGuard w N))).callDepth = N := by
    show ((enterN w (N + 1) (depthCounterGuard w N)).callDepth + (2 ^ w - 1)) % 2 ^ w = N
    rw [enterN_fresh_callDepth, succ_mod_pred_mod (2 ^ w) N (two_pow_pos_size w),
      Nat.mod_eq_of_lt hN]
  refine ⟨?_, hl, ?_⟩
  · rw [isOverflowing_fst, decide_eq_true_iff, enterN_fresh_callDepth,
      enterN_maxCallDepth, hmax]
    exact succ_mod_gt_iff (2 ^ w) N hN
  · rw [isOverflowing_fst, hl, leave_maxCallDepth, enterN_maxCallDepth, hmax]
    exact decide_eq_false (by omega)

/-- The amended C6 statement at ceiling 3 on a target with a 32-bit `size_t`. -/
theorem overflow_clears_after_leave_witness :
    3 < 2 ^ 32 ∧
    (((isOverflowing (enterN 32 (3 + 1) (depthCounterGuard 32 3))).1 = true ↔
      3 + 1 < 2 ^ 32) ∧
    (leave 32 (enterN 32 (3 + 1) (depthCounterGuard 32 3))).callDepth = 3 ∧
    (isOverflowing (leave 32 (enterN 32 (3 + 1) (depthCounterGuard 32 3)))).1 = false) :=
  ⟨by norm_num, overflow_clears_after_leave 32 3 (by norm_num)⟩

/-- C7: a guard built with ceiling 0 reports overflow right after the first
`enter()`: on every target whose `size_t` has at least one bit,
`enter()` on `depthCounterGuard(0)` gives `callDepth = 1` and
`maxCallDepth = 0`, and `isOverflowing()` then returns true. -/
theorem zero_ceiling_overflows_on_first_enter (w : Nat) (hw : 1 ≤ w) :
    (enter w (depthCounterGuard w 0)).callDepth = 1 ∧
    (enter w (depthCounterGuard w 0)).maxCallDepth = 0 ∧
    (isOverflowing (enter w (depthCounterGuard w 0))).1 = true := by
  have h1 : 1 < 2 ^ w := Nat.one_lt_two_pow (by omega)
  have hd : (enter w (depthCounterGuard w 0)).callDepth = 1 := by
    show (0 + 1) % 2 ^ w = 1
    rw [Nat.zero_add, Nat.mod_eq_of_lt h1]
  have hm : (enter w (depthCounterGuard w 0)).maxCallDepth = 0 := by
    show 0 % 2 ^ w = 0
    exact Nat.zero_mod _
  refine ⟨hd, hm, ?_⟩
  rw [isOverflowing_fst, hd, hm]
  rfl

/-- The C7 statement on a target with a 64-bit `size_t`. -/
theorem zero_ceiling_overflows_on_first_enter_witness :
    1 ≤ 64 ∧
    ((enter 64 (depthCounterGuard 64 0)).callDepth = 1 ∧
    (enter 64 (depthCounterGuard 64 0)).maxCallDepth = 0 ∧
    (isOverflowing (enter 64 (depthCounterGuard 64 0))).1 = true) :=
  ⟨by decide, zero_ceiling_overflows_on_first_enter 64 (by decide)⟩

/-- C8 (counterexample): the guard with `callDepth = 3` and `maxCallDepth = 3`
has its counter equal to the max, and `isOverflowing()` returns false on it. -/
theorem isOverflowing_false_at_max :
    ({ callDepth := 3, maxCallDepth := 3 } : StackOverflowGuard).callDepth =
      ({ callDepth := 3, maxCallDepth := 3 } : StackOverflowGuard).maxCallDepth ∧
    ¬ (isOverflowing { callDepth := 3, maxCallDepth := 3 }).1 = true := by
  decide

/-- C8 (amended): in counter mode no overflow is reported when the counter
reaches the user-defined max: for every guard whose `callDepth` equals
`maxCallDepth`, `isOverflowing()` returns false. -/
theorem isOverflowing_false_when_callDepth_eq_max (g : StackOverflowGuard)
    (h : g.callDepth = g.maxCallDepth) :
    (isOverflowing g).1 = false := by
  rw [isOverflowing_fst]
  exact decide_eq_false (by omega)

/-- The amended C8 statement on the guard with `callDepth = maxCallDepth = 5`. -/
theorem isOverflowing_false_when_callDepth_eq_max_witness :
    ({ callDepth := 5, maxCallDepth := 5 } : StackOverflowGuard).callDepth =
      ({ callDepth := 5, maxCallDepth := 5 } : StackOverflowGuard).maxCallDepth ∧
    (isOverflowing { callDepth := 5, maxCallDepth := 5 }).1 = false :=
  ⟨rfl, isOverflowing_false_when_callDepth_eq_max { callDepth := 5, maxCallDepth := 5 } rfl⟩

/-- C9: `maxCallDepth` is fixed after construction: for every `unsigned` value
`c` (with `size_t` at least as wide as `unsigned`), in the state reached from
`depthCounterGuard(c)` by any finite sequence of `enter()`, `leave()` and
`isOverflowing()` calls, `maxCallDepth` is still `c`, and it is non-negative. -/
theorem maxCallDepth_fixed_after_construction (u w c : Nat) (ops : List Op)
    (huw : u ≤ w) (hc : c < 2 ^ u) :
    (run w (depthCounterGuard w c) ops).maxCallDepth = c ∧
    0 ≤ (run w (depthCounterGuard w c) ops).maxCallDepth := by
  refine ⟨?_, Nat.zero_le _⟩
  rw [run_maxCallDepth, depthCounterGuard_maxCallDepth]
  exact toSizeT_of_unsigned u w c huw hc

/-- The C9 statement for ceiling 7 and a sequence that starts with an unmatched `leave()`. -/
theorem maxCallDepth_fixed_after_construction_witness :
    32 ≤ 32 ∧ 7 < 2 ^ 32 ∧
    ((run 32 (depthCounterGuard 32 7)
      [Op.leave, Op.enter, Op.isOverflowing, Op.enter, Op.enter]).maxCallDepth = 7 ∧
    0 ≤ (run 32 (depthCounterGuard 32 7)
      [Op.leave, Op.enter, Op.isOverflowing, Op.enter, Op.enter]).maxCallDepth) :=
  ⟨by decide, by norm_num,
    maxCallDepth_fixed_after_construction 32 32 7 _ (by decide) (by norm_num)⟩

/-- C10: address-mode boundary.  For every address-mode guard with gap `g`,
whichever way the stack grows, `isOverflowing()` is true exactly when the
distance remaining to the ceiling is at most `g`: with the stack pointer
exactly `g` bytes from the ceiling it returns true, and with `g + 1` bytes of
room it returns false. -/
theorem address_mode_boundary (ceiling g sp : Nat) :
    AddressGuard.isOverflowing
      { growth := StackGrowth.towardLower, stackCeiling := ceiling, gap := g }
      (ceiling + g) = true ∧
    AddressGuard.isOverflowing
      { growth := StackGrowth.towardLower, stackCeiling := ceiling, gap := g }
      (ceiling + (g + 1)) = false ∧
    AddressGuard.isOverflowing
      { growth := StackGrowth.towardHigher, stackCeiling := sp + g, gap := g }
      sp = true ∧
    AddressGuard.isOverflowing
      { growth := StackGrowth.towardHigher, stackCeiling := sp + (g + 1), gap := g }
      sp = false ∧
    (∀ a : AddressGuard, (a.isOverflowing sp = true ↔ a.remaining sp ≤ a.gap)) := by
  refine ⟨?_, ?_, ?_, ?_, fun a => ?_⟩
  · simp [AddressGuard.isOverflowing, AddressGuard.remaining]
  · simp [AddressGuard.isOverflowing, AddressGuard.remaining]
  · simp [AddressGuard.isOverflowing, AddressGuard.remaining]
  · simp [AddressGuard.isOverflowing, AddressGuard.remaining]
  · simp [AddressGuard.isOverflowing]

/-! ### Fresh guards, monotonicity and the unmatched `leave()` -/

/-- An `unsigned` value is below the largest `size_t` value when `size_t` is
wider than `unsigned`. -/
theorem unsigned_lt_size_max (u w c : Nat) (huw : u < w) (hc : c < 2 ^ u) :
    c < 2 ^ w - 1 := by
  have h1 : 2 ^ (u + 1) ≤ 2 ^ w := Nat.pow_le_pow_right (by decide) huw
  have h2 : 2 ^ (u + 1) = 2 * 2 ^ u := by rw [Nat.pow_succ, Nat.mul_comm]
  have h3 : 0 < 2 ^ u := Nat.two_pow_pos u
  omega

/-- A decrement of the counter at 0 wraps to the largest `size_t` value. -/
theorem leave_at_zero_callDepth (w m : Nat) :
    (leave w { callDepth := 0, maxCallDepth := m }).callDepth = 2 ^ w - 1 := by
  show (0 + (2 ^ w - 1)) % 2 ^ w = 2 ^ w - 1
  rw [Nat.zero_add]
  exact Nat.mod_eq_of_lt (Nat.sub_lt (two_pow_pos_size w) (by decide))

/-- C11: a freshly constructed guard is never overflowing: for every ceiling
`c`, `c = 0` included, `isOverflowing()` returns false on `depthCounterGuard(c)`
before any `enter()`. -/
theorem fresh_guard_not_overflowing (w c : Nat) :
    (isOverflowing (depthCounterGuard w c)).1 = false ∧
    (isOverflowing (depthCounterGuard w 0)).1 = false := by
  constructor
  · rw [isOverflowing_fst, depthCounterGuard_callDepth]
    exact decide_eq_false (Nat.not_lt_zero _)
  · rw [isOverflowing_fst, depthCounterGuard_callDepth]
    exact decide_eq_false (Nat.not_lt_zero _)

/-- C12: the overflow predicate is monotone in the depth and antitone in the
ceiling: for `d ≤ d'` and `m' ≤ m`, if the guard with `callDepth = d` and
`maxCallDepth = m` is overflowing, so is the guard with `callDepth = d'` and
`maxCallDepth = m'`. -/
theorem isOverflowing_mono (d d' m m' : Nat) (hd : d ≤ d') (hm : m' ≤ m)
    (h : (isOverflowing { callDepth := d, maxCallDepth := m }).1 = true) :
    (isOverflowing { callDepth := d', maxCallDepth := m' }).1 = true := by
  rw [isOverflowing_fst, decide_eq_true_iff] at h
  rw [isOverflowing_fst, decide_eq_true_iff]
  show d' > m'
  have h0 : d > m := h
  omega

/-- The C12 statement from depth 4 under ceiling 3 to depth 6 under ceiling 2. -/
theorem isOverflowing_mono_witness :
    4 ≤ 6 ∧ 2 ≤ 3 ∧
    (isOverflowing { callDepth := 4, maxCallDepth := 3 }).1 = true ∧
    (isOverflowing { callDepth := 6, maxCallDepth := 2 }).1 = true :=
  ⟨by decide, by decide, by decide,
    isOverflowing_mono 4 6 3 2 (by decide) (by decide) (by decide)⟩

/-- C13: an unmatched `leave()` is not silent.  On a target whose `size_t` has
`w` bits and is wider than `unsigned` (`u < w`): a decrement at `callDepth = 0`
wraps to `2 ^ w - 1`; `isOverflowing()` then returns true exactly when
`maxCallDepth` is smaller than `2 ^ w - 1`; that is the case for
`depthCounterGuard(c)` with every `unsigned` value `c`; and a guard whose
`maxCallDepth` is `2 ^ w - 1` reports no overflow for any `size_t` value of
`callDepth`. -/
theorem unmatched_leave_reports_overflow (u w c : Nat) (huw : u < w) (hc : c < 2 ^ u) :
    (∀ m : Nat, (leave w { callDepth := 0, maxCallDepth := m }).callDepth = 2 ^ w - 1) ∧
    (∀ m : Nat, ((isOverflowing (leave w { callDepth := 0, maxCallDepth := m })).1 = true ↔
      m < 2 ^ w - 1)) ∧
    ((depthCounterGuard w c).maxCallDepth < 2 ^ w - 1 ∧
      (leave w (depthCounterGuard w c)).callDepth = 2 ^ w - 1 ∧
      (isOverflowing (leave w (depthCounterGuard w c))).1 = true) ∧
    (∀ d : Fin (2 ^ w),
      (isOverflowing { callDepth := d.val, maxCallDepth := 2 ^ w - 1 }).1 = false) := by
  have hmax : (depthCounterGuard w c).maxCallDepth = c :=
    toSizeT_of_unsigned u w c (Nat.le_of_lt huw) hc
  have hlt : c < 2 ^ w - 1 := unsigned_lt_size_max u w c huw hc
  have hwrap : (leave w (depthCounterGuard w c)).callDepth = 2 ^ w - 1 :=
    leave_at_zero_callDepth w (toSizeT w c)
  refine ⟨fun m => leave_at_zero_callDepth w m, fun m => ?_, ⟨?_, hwrap, ?_⟩, fun d => ?_⟩
  · rw [isOverflowing_fst, decide_eq_true_iff, leave_at_zero_callDepth, leave_maxCallDepth]
  · rw [hmax]
    exact hlt
  · rw [isOverflowing_fst, hwrap, leave_maxCallDepth, hmax]
    exact decide_eq_true hlt
  · rw [isOverflowing_fst]
    refine decide_eq_false ?_
    show ¬ (d.val > 2 ^ w - 1)
    have hd := d.isLt
    omega

/-- The C13 statement for a 32-bit `unsigned`, a 64-bit `size_t` and the
largest `unsigned` ceiling. -/
theorem unmatched_leave_reports_overflow_witness :
    32 < 64 ∧ 4294967295 < 2 ^ 32 ∧
    ((∀ m : Nat, (leave 64 { callDepth := 0, maxCallDepth := m }).callDepth = 2 ^ 64 - 1) ∧
    (∀ m : Nat, ((isOverflowing (leave 64 { callDepth := 0, maxCallDepth := m })).1 = true ↔
      m < 2 ^ 64 - 1)) ∧
    ((depthCounterGuard 64 4294967295).maxCallDepth < 2 ^ 64 - 1 ∧
      (leave 64 (depthCounterGuard 64 4294967295)).callDepth = 2 ^ 64 - 1 ∧
      (isOverflowing (leave 64 (depthCounterGuard 64 4294967295))).1 = true) ∧
    (∀ d : Fin (2 ^ 64),
      (isOverflowing { callDepth := d.val, maxCallDepth := 2 ^ 64 - 1 }).1 = false)) :=
  ⟨by decide, by norm_num,
    unmatched_leave_reports_overflow 32 64 4294967295 (by decide) (by norm_num)⟩

end hermes
